import Mathlib

/-!
# Verification of the biscuit-python binding (`src/lib.rs`)

The repository is a thin binding exposing the biscuit token library:
`PyBiscuitBuilder`, `PyBiscuit`, `PyAuthorizer`, `PyBlockBuilder`,
`PyKeyPair`, `PyPublicKey`, `PyPrivateKey`, plus the five exception types
`DataLogError`, `AuthorizationError`, `BiscuitBuildError`,
`BiscuitValidationError`, `BiscuitSerializationError`.

The binding layer (error mapping, state held in each wrapper struct, the
order of parse-then-push in every `add_*` method, `&self` receivers) is
embedded directly from `src/lib.rs`.  The token/Datalog engine itself lives
in the external `biscuit_auth` crate, which is not part of this repository;
those parts are modelled from the specification (each such definition says
so in its doc comment): Datalog parsing and fixpoint evaluation with an
iteration cap, block-scoped fact visibility, check evaluation, ordered
policy matching, the signature-chained token with next-key delegation,
sealing, and the serializer with its round-trip.
-/

namespace Biscuit

/-! ## Datalog data model (modelled from the spec, §3) -/

/-- A Datalog term: string, integer, boolean, or variable.
Modelled from the spec: terms are a tagged variant; the bytes/date/set
variants are orthogonal to the properties below and are omitted. -/
inductive Term where
  | str (s : String)
  | int (i : Int)
  | bool (b : Bool)
  | var (v : String)
deriving DecidableEq

/-- A predicate: name applied to an ordered list of terms. -/
structure Predicate where
  name : String
  terms : List Term
deriving DecidableEq

/-- A fact is a ground predicate (groundness enforced at parse time). -/
abbrev Fact := Predicate

/-- A rule: head predicate derived from a conjunction of body predicates. -/
structure Rule where
  head : Predicate
  body : List Predicate
deriving DecidableEq

/-- A check is rule-shaped: its body must have at least one match. -/
abbrev Check := Rule

/-- Policy kind: allow or deny. -/
inductive PolicyKind where
  | allow
  | deny
deriving DecidableEq

/-- A policy: allow/deny together with its matcher body. -/
structure Policy where
  kind : PolicyKind
  body : List Predicate
deriving DecidableEq

/-- Whether a term is ground (contains no variable). -/
def Term.isGroundT : Term → Bool
  | .var _ => false
  | _ => true

/-- Whether a predicate is ground. -/
def Predicate.isGroundP (p : Predicate) : Bool :=
  p.terms.all Term.isGroundT

/-! ## Errors

`src/lib.rs` creates five exception types and additionally maps some
failures to Python's `ValueError` (the `From<biscuit::error::Token>` impl
and the `PyPublicKey/PyPrivateKey` deserializers). -/

/-- The kind of a raised Python exception. -/
inductive ErrorKind where
  | dataLog
  | authorization
  | buildError
  | validationError
  | serializationError
  | valueError
deriving DecidableEq

/-- Structured payload of an `AuthorizationError`.  `evalError` is the
wrapped message of an inner evaluation failure (such as the run-limit
overrun): `src/lib.rs` line 306 maps every failure of the inner
`authorizer.authorize()` to `AuthorizationError`. -/
inductive AuthFailure where
  | failedChecks (failed : List Check)
  | denied (index : Nat) (p : Policy)
  | noMatchingPolicy
  | evalError (msg : String)
deriving DecidableEq

/-- A raised Python exception, as produced by the binding. -/
inductive PyError where
  | dataLog (msg : String)
  | authorization (f : AuthFailure)
  | buildError (msg : String)
  | validationError (msg : String)
  | serializationError (msg : String)
  | valueError (msg : String)
deriving DecidableEq

/-- The kind of an error value. -/
def PyError.kind : PyError → ErrorKind
  | .dataLog _ => .dataLog
  | .authorization _ => .authorization
  | .buildError _ => .buildError
  | .validationError _ => .validationError
  | .serializationError _ => .serializationError
  | .valueError _ => .valueError

/-- The human-readable message of an error value (`error.to_string()` in
`src/lib.rs`). -/
def PyError.message : PyError → String
  | .dataLog m => m
  | .authorization _ => "authorization failed"
  | .buildError m => m
  | .validationError m => m
  | .serializationError m => m
  | .valueError m => m

/-- The five typed error kinds exported by the module (`src/lib.rs`,
`create_exception!` lines). -/
def fiveErrorKinds : List ErrorKind :=
  [.dataLog, .authorization, .buildError, .validationError, .serializationError]

/-! ## Parser (modelled from the spec, §4.1)

Modelled from the spec: the textual Datalog grammar is implemented in the
external `biscuit_auth` crate.  We implement the fragment the binding
passes through: facts `name(t, ...)`, rules `head(...) <- p1(...), ...`,
checks `check if p1(...), ...`, policies `allow if ...` / `deny if ...`,
with string, integer, boolean and variable terms.  All functions work on
`List Char` with structural or fuel recursion so they evaluate by `rfl`. -/

/-- Character class for identifier continuation. -/
def isIdentChar (c : Char) : Bool :=
  c.isAlphanum || c = '_'

/-- Drop leading whitespace. -/
def skipWs : List Char → List Char
  | [] => []
  | c :: cs => if c = ' ' then skipWs cs else c :: cs

/-- Parse an identifier (letter followed by identifier characters). -/
def parseIdent (l : List Char) : Option (String × List Char) :=
  match l with
  | [] => none
  | c :: cs =>
    if c.isAlpha then
      let rest := cs.takeWhile isIdentChar
      some (String.mk (c :: rest), cs.dropWhile isIdentChar)
    else none

/-- Parse the characters of a string literal after the opening quote. -/
def parseStrChars : List Char → Option (List Char × List Char)
  | [] => none
  | c :: cs =>
    if c = '\"' then some ([], cs)
    else match parseStrChars cs with
      | some (body, rest) => some (c :: body, rest)
      | none => none

/-- Parse a decimal digit run into a natural number. -/
def parseDigits (acc : Nat) : List Char → (Nat × List Char)
  | [] => (acc, [])
  | c :: cs =>
    if c.isDigit then parseDigits (acc * 10 + (c.toNat - 48)) cs
    else (acc, c :: cs)

/-- Parse one term: string literal, variable, boolean, or integer. -/
def parseTerm (l : List Char) : Option (Term × List Char) :=
  match skipWs l with
  | [] => none
  | c :: cs =>
    if c = '\"' then
      match parseStrChars cs with
      | some (body, rest) => some (.str (String.mk body), rest)
      | none => none
    else if c = '$' then
      match parseIdent cs with
      | some (v, rest) => some (.var v, rest)
      | none => none
    else if c.isDigit then
      let (n, rest) := parseDigits 0 (c :: cs)
      some (.int (Int.ofNat n), rest)
    else if c = '-' then
      match cs with
      | d :: ds =>
        if d.isDigit then
          let (n, rest) := parseDigits 0 (d :: ds)
          some (.int (-(Int.ofNat n)), rest)
        else none
      | [] => none
    else
      match parseIdent (c :: cs) with
      | some (id, rest) =>
        if id = "true" then some (.bool true, rest)
        else if id = "false" then some (.bool false, rest)
        else none
      | none => none

/-- Parse a comma-separated term list until the closing parenthesis.
`fuel` bounds the recursion; callers pass the input length. -/
def parseTermList (fuel : Nat) (l : List Char) : Option (List Term × List Char) :=
  match fuel with
  | 0 => none
  | fuel + 1 =>
    match skipWs l with
    | c :: cs =>
      if c = ')' then some ([], cs)
      else
        match parseTerm (c :: cs) with
        | some (t, rest) =>
          match skipWs rest with
          | d :: ds =>
            if d = ',' then
              match parseTermList fuel ds with
              | some (ts, rest') => some (t :: ts, rest')
              | none => none
            else if d = ')' then some ([t], ds)
            else none
          | [] => none
        | none => none
    | [] => none

/-- Parse a predicate: `ident ( terms )`. -/
def parsePredicate (l : List Char) : Option (Predicate × List Char) :=
  match parseIdent (skipWs l) with
  | some (name, rest) =>
    match skipWs rest with
    | c :: cs =>
      if c = '(' then
        match parseTermList (cs.length + 1) cs with
        | some (ts, rest') => some (⟨name, ts⟩, rest')
        | none => none
      else none
    | [] => none
  | none => none

/-- Parse a comma-separated conjunction of predicates (at least one). -/
def parsePredList (fuel : Nat) (l : List Char) : Option (List Predicate × List Char) :=
  match fuel with
  | 0 => none
  | fuel + 1 =>
    match parsePredicate l with
    | some (p, rest) =>
      match skipWs rest with
      | c :: cs =>
        if c = ',' then
          match parsePredList fuel cs with
          | some (ps, rest') => some (p :: ps, rest')
          | none => none
        else some ([p], c :: cs)
      | [] => some ([p], [])
    | none => none

/-- Expect that only whitespace remains. -/
def atEnd (l : List Char) : Bool :=
  (skipWs l).isEmpty

/-- Match a literal keyword at the head of the input. -/
def parseKeyword (kw : String) (l : List Char) : Option (List Char) :=
  match parseIdent (skipWs l) with
  | some (id, rest) => if id = kw then some rest else none
  | none => none

/-- Parse a fact statement: a ground predicate. -/
def parseFactStr (s : String) : Except PyError Fact :=
  match parsePredicate s.toList with
  | some (p, rest) =>
    if atEnd rest then
      if p.isGroundP then .ok p
      else .error (.dataLog "variable in fact")
    else .error (.dataLog "unexpected trailing input")
  | none => .error (.dataLog "failed to parse fact")

/-- Parse a rule statement: `head <- body`. -/
def parseRuleStr (s : String) : Except PyError Rule :=
  match parsePredicate s.toList with
  | some (hd, rest) =>
    match skipWs rest with
    | c :: cs =>
      if c = '<' then
        match cs with
        | d :: ds =>
          if d = '-' then
            match parsePredList (ds.length + 1) ds with
            | some (body, rest') =>
              if atEnd rest' then .ok ⟨hd, body⟩
              else .error (.dataLog "unexpected trailing input")
            | none => .error (.dataLog "failed to parse rule body")
          else .error (.dataLog "failed to parse rule")
        | [] => .error (.dataLog "failed to parse rule")
      else .error (.dataLog "failed to parse rule")
    | [] => .error (.dataLog "failed to parse rule")
  | none => .error (.dataLog "failed to parse rule")

/-- Parse a check statement: `check if body`. -/
def parseCheckStr (s : String) : Except PyError Check :=
  match parseKeyword "check" s.toList with
  | some rest =>
    match parseKeyword "if" rest with
    | some rest' =>
      match parsePredList (rest'.length + 1) rest' with
      | some (body, rest'') =>
        if atEnd rest'' then .ok ⟨⟨"query", []⟩, body⟩
        else .error (.dataLog "unexpected trailing input")
      | none => .error (.dataLog "failed to parse check body")
    | none => .error (.dataLog "failed to parse check")
  | none => .error (.dataLog "failed to parse check")

/-- Parse a policy statement: `allow if body` or `deny if body`. -/
def parsePolicyStr (s : String) : Except PyError Policy :=
  match parseIdent (skipWs s.toList) with
  | some (kw, rest) =>
    let kind? : Option PolicyKind :=
      if kw = "allow" then some .allow
      else if kw = "deny" then some .deny
      else none
    match kind? with
    | some kind =>
      match parseKeyword "if" rest with
      | some rest' =>
        match parsePredList (rest'.length + 1) rest' with
        | some (body, rest'') =>
          if atEnd rest'' then .ok ⟨kind, body⟩
          else .error (.dataLog "unexpected trailing input")
        | none => .error (.dataLog "failed to parse policy body")
      | none => .error (.dataLog "failed to parse policy")
    | none => .error (.dataLog "failed to parse policy")
  | none => .error (.dataLog "failed to parse policy")

/-! ## Whole-source parsing (`parse_source`)

Modelled from the spec: `parse(text)` splits a source chunk into
statements and yields all four statement kinds, or the list of parse
errors; the result is all-or-nothing. -/

/-- The result of parsing a whole source chunk. -/
structure SourceResult where
  facts : List Fact
  rules : List Rule
  checks : List Check
  policies : List Policy
deriving DecidableEq

/-- Split a character stream on semicolons. -/
def splitSemisAux (acc : List Char) : List Char → List (List Char)
  | [] => [acc.reverse]
  | c :: rest =>
    if c = ';' then acc.reverse :: splitSemisAux [] rest
    else splitSemisAux (c :: acc) rest

/-- Statements of a source chunk (semicolon-separated, blanks dropped). -/
def sourceStatements (s : String) : List String :=
  ((splitSemisAux [] s.toList).filter (fun l => !(atEnd l))).map String.mk

/-- Parse one statement as a check, policy, rule or fact. -/
def parseStatement (s : String) : Except PyError (SourceResult → SourceResult) :=
  match parseCheckStr s with
  | .ok c => .ok (fun r => { r with checks := r.checks ++ [c] })
  | .error _ =>
    match parsePolicyStr s with
    | .ok p => .ok (fun r => { r with policies := r.policies ++ [p] })
    | .error _ =>
      match parseRuleStr s with
      | .ok ru => .ok (fun r => { r with rules := r.rules ++ [ru] })
      | .error _ =>
        match parseFactStr s with
        | .ok f => .ok (fun r => { r with facts := r.facts ++ [f] })
        | .error e => .error e

/-- Accumulate parsed statements, collecting every error. -/
def parseStatements (acc : SourceResult) : List String → Except (List PyError) SourceResult
  | [] => .ok acc
  | s :: rest =>
    match parseStatement s with
    | .ok upd =>
      match parseStatements (upd acc) rest with
      | .ok r => .ok r
      | .error es => .error es
    | .error e =>
      match parseStatements acc rest with
      | .ok _ => .error [e]
      | .error es => .error (e :: es)

/-- `parse_source`: parse a whole chunk, all-or-nothing; on failure the
list of errors (at least one) is returned. -/
def parse_source (s : String) : Except (List PyError) SourceResult :=
  parseStatements ⟨[], [], [], []⟩ (sourceStatements s)

/-! ## Printing block sources -/

/-- Print a term back to Datalog text. -/
def printTerm : Term → String
  | .str s => "\"" ++ s ++ "\""
  | .int i => toString i
  | .bool b => if b then "true" else "false"
  | .var v => "$" ++ v

/-- Print a predicate. -/
def printPred (p : Predicate) : String :=
  p.name ++ "(" ++ String.intercalate ", " (p.terms.map printTerm) ++ ")"

/-- Print a rule. -/
def printRule (r : Rule) : String :=
  printPred r.head ++ " <- " ++ String.intercalate ", " (r.body.map printPred)

/-- Print a check. -/
def printCheck (c : Check) : String :=
  "check if " ++ String.intercalate ", " (c.body.map printPred)

/-! ## Matching and fixpoint evaluation (modelled from the spec, §4.4) -/

/-- A substitution from variable names to ground terms. -/
abbrev Subst := List (String × Term)

/-- Match a pattern term against a ground term, extending a substitution. -/
def matchTerm (σ : Subst) : Term → Term → Option Subst
  | .var v, g =>
    match σ.lookup v with
    | some g' => if g' = g then some σ else none
    | none => some ((v, g) :: σ)
  | t, g => if t = g then some σ else none

/-- Match the term lists of a pattern and a ground predicate. -/
def matchTerms (σ : Subst) : List Term → List Term → Option Subst
  | [], [] => some σ
  | t :: ts, g :: gs =>
    match matchTerm σ t g with
    | some σ' => matchTerms σ' ts gs
    | none => none
  | _, _ => none

/-- Match one body predicate against one fact. -/
def matchPred (σ : Subst) (p : Predicate) (f : Fact) : Option Subst :=
  if p.name = f.name then matchTerms σ p.terms f.terms else none

/-- All substitutions matching a conjunction of body predicates against a
fact set. -/
def matchBody (facts : List Fact) (σ : Subst) : List Predicate → List Subst
  | [] => [σ]
  | p :: ps =>
    (facts.filterMap (fun f => matchPred σ p f)).flatMap
      (fun σ' => matchBody facts σ' ps)

/-- Whether a conjunction has at least one satisfying derivation. -/
def bodyMatches (facts : List Fact) (body : List Predicate) : Bool :=
  !(matchBody facts [] body).isEmpty

/-- Apply a substitution to a term. -/
def substTerm (σ : Subst) : Term → Term
  | .var v => (σ.lookup v).getD (.var v)
  | t => t

/-- Apply a substitution to a predicate. -/
def substPred (σ : Subst) (p : Predicate) : Predicate :=
  ⟨p.name, p.terms.map (substTerm σ)⟩

/-- Facts derivable from one rule in one step (ground heads only). -/
def ruleFacts (facts : List Fact) (r : Rule) : List Fact :=
  ((matchBody facts [] r.body).map (fun σ => substPred σ r.head)).filter
    Predicate.isGroundP

/-- Insert a fact if not already present. -/
def insertFact (fs : List Fact) (f : Fact) : List Fact :=
  if f ∈ fs then fs else fs ++ [f]

/-- One round of applying every rule to the current fact set. -/
def stepFacts (rules : List Rule) (facts : List Fact) : List Fact :=
  rules.foldl (fun acc r => (ruleFacts facts r).foldl insertFact acc) facts

/-- Modelled from the spec: the fixed iteration cap bounding fixpoint
evaluation. -/
def evalCap : Nat := 100

/-- Fixpoint evaluation under a fuel bound; exhausting the fuel is the
evaluation-limit `DataLogError`. -/
def fixFacts : Nat → List Rule → List Fact → Except PyError (List Fact)
  | 0, _, _ => .error (.dataLog "evaluation limit reached")
  | fuel + 1, rules, facts =>
    let nf := stepFacts rules facts
    if nf = facts then .ok facts else fixFacts fuel rules nf

/-! ## Key material (modelled from the spec, §3)

Modelled from the spec: a keypair is a private scalar with a derived
public point (`public = scalarMult(basepoint, private)`); we model scalars
and points as naturals with an injective derivation, since no claim below
depends on cryptographic hardness. -/

/-- Derivation of the public half from a private scalar. -/
def pubOf (sk : Nat) : Nat := 2 * sk + 1

/-- `PyKeyPair` (`src/lib.rs`): a keypair handle. -/
structure PyKeyPair where
  privScalar : Nat
deriving DecidableEq

/-- The `public_key` getter. -/
def PyKeyPair.public_key (k : PyKeyPair) : Nat := pubOf k.privScalar

/-! ## Blocks and the token chain (modelled from the spec, §3–§4.3) -/

/-- The statement content of one block. -/
structure BlockContent where
  facts : List Fact
  rules : List Rule
  checks : List Check
deriving DecidableEq

/-- Modelled from the spec: one signed block: content, the embedded
public half of the next-key delegation, and the signature. -/
structure Block where
  content : BlockContent
  nextKey : Nat
  sig : List Nat
deriving DecidableEq

/-- `PyBiscuit` (`src/lib.rs`): the token chain handle.  Modelled from the
spec: an ordered sequence of signed blocks, a sealed marker, and the
private half of the last delegated key (carried so any holder can
attenuate). -/
structure PyBiscuit where
  blocks : List Block
  sealedFlag : Bool
  nextSecret : Nat
deriving DecidableEq

/-! ### Serialization of blocks to flat data

Modelled from the spec: a versioned, self-describing envelope; we encode
to `List Nat` with self-delimiting component encodings. -/

/-- Encode a boolean. -/
def encBool (b : Bool) : List Nat := [if b then 1 else 0]

/-- Encode an integer (positive part, negative part). -/
def encInt (i : Int) : List Nat := [i.toNat, (-i).toNat]

/-- Encode a string (length, character codes). -/
def encString (s : String) : List Nat :=
  s.data.length :: s.data.map Char.toNat

/-- Encode a list given a self-delimiting element encoder. -/
def encListWith (enc : α → List Nat) (xs : List α) : List Nat :=
  xs.length :: (xs.map enc).flatten

/-- Encode a term. -/
def encTerm : Term → List Nat
  | .str s => 0 :: encString s
  | .int i => 1 :: encInt i
  | .bool b => 2 :: encBool b
  | .var v => 3 :: encString v

/-- Encode a predicate. -/
def encPred (p : Predicate) : List Nat :=
  encString p.name ++ encListWith encTerm p.terms

/-- Encode a rule (also used for checks). -/
def encRule (r : Rule) : List Nat :=
  encPred r.head ++ encListWith encPred r.body

/-- Encode block content. -/
def encContent (b : BlockContent) : List Nat :=
  encListWith encPred b.facts ++ encListWith encRule b.rules ++
    encListWith encRule b.checks

/-- Encode a signed block. -/
def encBlock (b : Block) : List Nat :=
  encContent b.content ++ [b.nextKey] ++ encListWith (fun n => [n]) b.sig

/-- The supported wire version. -/
def wireVersion : Nat := 3

/-- Encode a whole chain. -/
def encChain (c : PyBiscuit) : List Nat :=
  wireVersion :: encBool c.sealedFlag ++ [c.nextSecret] ++
    encListWith encBlock c.blocks

/-! ### Decoders (each returns the value and the unconsumed remainder) -/

/-- Decode one natural. -/
def decNat : List Nat → Option (Nat × List Nat)
  | n :: rest => some (n, rest)
  | [] => none

/-- Decode a boolean. -/
def decBool : List Nat → Option (Bool × List Nat)
  | n :: rest => some (n ≠ 0, rest)
  | [] => none

/-- Decode an integer. -/
def decInt : List Nat → Option (Int × List Nat)
  | a :: b :: rest => some ((a : Int) - (b : Int), rest)
  | _ => none

/-- Decode a run of character codes. -/
def decChars : Nat → List Nat → Option (List Char × List Nat)
  | 0, l => some ([], l)
  | n + 1, c :: rest =>
    match decChars n rest with
    | some (cs, r) => some (Char.ofNat c :: cs, r)
    | none => none
  | _ + 1, [] => none

/-- Decode a string. -/
def decString (l : List Nat) : Option (String × List Nat) :=
  match decNat l with
  | some (n, l') =>
    match decChars n l' with
    | some (cs, r) => some (String.mk cs, r)
    | none => none
  | none => none

/-- Decode a length-prefixed list given an element decoder. -/
def decListWith (dec : List Nat → Option (α × List Nat)) :
    Nat → List Nat → Option (List α × List Nat)
  | 0, l => some ([], l)
  | n + 1, l =>
    match dec l with
    | some (a, l') =>
      match decListWith dec n l' with
      | some (as', l'') => some (a :: as', l'')
      | none => none
    | none => none

/-- Decode a counted list (reads the length first). -/
def decList (dec : List Nat → Option (α × List Nat)) (l : List Nat) :
    Option (List α × List Nat) :=
  match decNat l with
  | some (n, l') => decListWith dec n l'
  | none => none

/-- Decode a term. -/
def decTerm : List Nat → Option (Term × List Nat)
  | 0 :: rest =>
    match decString rest with
    | some (s, r) => some (.str s, r)
    | none => none
  | 1 :: rest =>
    match decInt rest with
    | some (i, r) => some (.int i, r)
    | none => none
  | 2 :: rest =>
    match decBool rest with
    | some (b, r) => some (.bool b, r)
    | none => none
  | 3 :: rest =>
    match decString rest with
    | some (v, r) => some (.var v, r)
    | none => none
  | _ => none

/-- Decode a predicate. -/
def decPred (l : List Nat) : Option (Predicate × List Nat) :=
  match decString l with
  | some (name, l') =>
    match decList decTerm l' with
    | some (ts, r) => some (⟨name, ts⟩, r)
    | none => none
  | none => none

/-- Decode a rule. -/
def decRule (l : List Nat) : Option (Rule × List Nat) :=
  match decPred l with
  | some (hd, l') =>
    match decList decPred l' with
    | some (body, r) => some (⟨hd, body⟩, r)
    | none => none
  | none => none

/-- Decode block content. -/
def decContent (l : List Nat) : Option (BlockContent × List Nat) :=
  match decList decPred l with
  | some (fs, l1) =>
    match decList decRule l1 with
    | some (rs, l2) =>
      match decList decRule l2 with
      | some (cs, l3) => some (⟨fs, rs, cs⟩, l3)
      | none => none
    | none => none
  | none => none

/-- Decode a signed block. -/
def decBlock (l : List Nat) : Option (Block × List Nat) :=
  match decContent l with
  | some (content, l1) =>
    match decNat l1 with
    | some (nk, l2) =>
      match decList decNat l2 with
      | some (sig, l3) => some (⟨content, nk, sig⟩, l3)
      | none => none
    | none => none
  | none => none

/-- Decode a whole chain. -/
def decChain (l : List Nat) : Option ((Nat × PyBiscuit) × List Nat) :=
  match decNat l with
  | some (ver, l1) =>
    match decBool l1 with
    | some (sealed?, l2) =>
      match decNat l2 with
      | some (ns, l3) =>
        match decList decBlock l3 with
        | some (bs, l4) => some ((ver, ⟨bs, sealed?, ns⟩), l4)
        | none => none
      | none => none
    | none => none
  | none => none

/-! ### Signature chain (modelled from the spec, §3 and §4.3)

Modelled from the spec: `signature(i)` depends on block i's content and
`signature(i-1)` (the root public key standing in for block 0's
predecessor); each block embeds the public half of the key that must sign
the next block.  Signatures are modelled symbolically: signing tags the
message with the signer's public key, verification recomputes the tag. -/

/-- The signed message of a block given the previous signature. -/
def blockMsg (content : BlockContent) (nextKey : Nat) (prevSig : List Nat) : List Nat :=
  encContent content ++ nextKey :: prevSig

/-- Symbolic signature. -/
def signMsg (sk : Nat) (msg : List Nat) : List Nat := pubOf sk :: msg

/-- Symbolic signature verification against a public key. -/
def verifySig (pk : Nat) (msg : List Nat) (sig : List Nat) : Bool :=
  sig = pk :: msg

/-- Walk the chain verifying each block against the expected signer. -/
def verifyBlocks (pk : Nat) (prevSig : List Nat) : List Block → Bool
  | [] => true
  | b :: rest =>
    verifySig pk (blockMsg b.content b.nextKey prevSig) b.sig &&
      verifyBlocks b.nextKey b.sig rest

/-- Whole-chain verification: at least one block, every signature valid
starting from the root public key, and the carried next secret matching
the last embedded delegation key. -/
def verifyChain (rootPk : Nat) (c : PyBiscuit) : Bool :=
  !c.blocks.isEmpty &&
    verifyBlocks rootPk [rootPk] c.blocks &&
    (match c.blocks.getLast? with
     | some lb => pubOf c.nextSecret = lb.nextKey
     | none => false)

/-! ## `PyBiscuitBuilder` (`src/lib.rs`, lines 21–93)

The builder accumulates parsed facts, rules and checks; each `add_*`
method parses its argument and pushes it, returning `DataLogError` on a
parse failure without touching the accumulated state.  Methods taking
`&mut self` are embedded as state-passing: they return the new state and
the call's result; `build` takes `&self` and leaves the builder as is. -/

structure PyBiscuitBuilder where
  facts : List Fact
  rules : List Rule
  checks : List Check
deriving DecidableEq

/-- `PyBiscuitBuilder::new`. -/
def PyBiscuitBuilder.new : PyBiscuitBuilder := ⟨[], [], []⟩

/-- `PyBiscuitBuilder::add_authority_fact`. -/
def PyBiscuitBuilder.add_authority_fact (b : PyBiscuitBuilder) (s : String) :
    PyBiscuitBuilder × Except PyError Unit :=
  match parseFactStr s with
  | .ok f => ({ b with facts := b.facts ++ [f] }, .ok ())
  | .error e => (b, .error e)

/-- `PyBiscuitBuilder::add_authority_rule`. -/
def PyBiscuitBuilder.add_authority_rule (b : PyBiscuitBuilder) (s : String) :
    PyBiscuitBuilder × Except PyError Unit :=
  match parseRuleStr s with
  | .ok r => ({ b with rules := b.rules ++ [r] }, .ok ())
  | .error e => (b, .error e)

/-- `PyBiscuitBuilder::add_authority_check`. -/
def PyBiscuitBuilder.add_authority_check (b : PyBiscuitBuilder) (s : String) :
    PyBiscuitBuilder × Except PyError Unit :=
  match parseCheckStr s with
  | .ok c => ({ b with checks := b.checks ++ [c] }, .ok ())
  | .error e => (b, .error e)

/-- The authority block content frozen from a builder. -/
def PyBiscuitBuilder.freeze (b : PyBiscuitBuilder) : BlockContent :=
  ⟨b.facts, b.rules, b.checks⟩

/-- Modelled from the spec: `build(rootKeyPair, block0)` serializes block
0, signs it with the root private key, embeds a fresh delegation key and
records its private half for later attenuation.  Freshness is modelled by
a deterministic key stream starting at 0. -/
def mkToken (root : PyKeyPair) (content : BlockContent) : PyBiscuit :=
  let nextSk := 0
  let nk := pubOf nextSk
  let sig := signMsg root.privScalar (blockMsg content nk [root.public_key])
  ⟨[⟨content, nk, sig⟩], false, nextSk⟩

/-- `PyBiscuitBuilder::build` (`&self`: the builder is not consumed).
The inner re-adds of already-parsed statements cannot fail, and block-0
serialization is total in the model, so `build` always succeeds. -/
def PyBiscuitBuilder.build (b : PyBiscuitBuilder) (root : PyKeyPair) :
    Except PyError PyBiscuit :=
  .ok (mkToken root b.freeze)

/-! ## `PyBlockBuilder` (`src/lib.rs`, lines 311–351)

`PyBlockBuilder` derives `Clone` and is taken by value in `append`, so the
host-side object survives the call.  Its `add_*` methods follow the same
parse-then-push pattern. -/

structure PyBlockBuilder where
  facts : List Fact
  rules : List Rule
  checks : List Check
deriving DecidableEq

/-- `PyBlockBuilder::add_fact`. -/
def PyBlockBuilder.add_fact (b : PyBlockBuilder) (s : String) :
    PyBlockBuilder × Except PyError Unit :=
  match parseFactStr s with
  | .ok f => ({ b with facts := b.facts ++ [f] }, .ok ())
  | .error e => (b, .error e)

/-- `PyBlockBuilder::add_rule`. -/
def PyBlockBuilder.add_rule (b : PyBlockBuilder) (s : String) :
    PyBlockBuilder × Except PyError Unit :=
  match parseRuleStr s with
  | .ok r => ({ b with rules := b.rules ++ [r] }, .ok ())
  | .error e => (b, .error e)

/-- `PyBlockBuilder::add_check`. -/
def PyBlockBuilder.add_check (b : PyBlockBuilder) (s : String) :
    PyBlockBuilder × Except PyError Unit :=
  match parseCheckStr s with
  | .ok c => ({ b with checks := b.checks ++ [c] }, .ok ())
  | .error e => (b, .error e)

/-- `PyBlockBuilder::add_code`: whole-chunk parse, all-or-nothing; policy
statements in a non-root block are dropped (spec §9 leaves their handling
open). -/
def PyBlockBuilder.add_code (b : PyBlockBuilder) (s : String) :
    PyBlockBuilder × Except PyError Unit :=
  match parse_source s with
  | .ok r =>
    ({ b with
        facts := b.facts ++ r.facts
        rules := b.rules ++ r.rules
        checks := b.checks ++ r.checks }, .ok ())
  | .error es => (b, .error ((es.headD (.dataLog "parse error"))))

/-- The block content frozen from a block builder. -/
def PyBlockBuilder.freeze (b : PyBlockBuilder) : BlockContent :=
  ⟨b.facts, b.rules, b.checks⟩

/-! ## `PyBiscuit` methods (`src/lib.rs`, lines 95–192) -/

/-- `PyBiscuit::create_block`. -/
def PyBiscuit.create_block (_ : PyBiscuit) : PyBlockBuilder := ⟨[], [], []⟩

/-- The signature of the last block. -/
def lastSig (c : PyBiscuit) : List Nat :=
  match c.blocks.getLast? with
  | some b => b.sig
  | none => []

/-- Modelled from the spec: `append(blockN)` is attenuation: the new block
is signed with the private half of the previous block's embedded
delegation key, embeds a fresh delegation key, and extends the block
sequence; appending to a sealed chain fails with `BiscuitBuildError`
(`src/lib.rs` maps every append failure to `BiscuitBuildError`). -/
def PyBiscuit.append (c : PyBiscuit) (bb : PyBlockBuilder) :
    Except PyError PyBiscuit :=
  if c.sealedFlag then
    .error (.buildError "cannot append a block to a sealed token")
  else
    let content := bb.freeze
    let nextSk := c.nextSecret + 1
    let nk := pubOf nextSk
    let sig := signMsg c.nextSecret (blockMsg content nk (lastSig c))
    .ok ⟨c.blocks ++ [⟨content, nk, sig⟩], false, nextSk⟩

/-- `PyBiscuit::seal` (modelled from the spec: marks the chain
non-extendable; `src/lib.rs` unwraps the inner result, so no error is ever
raised). -/
def PyBiscuit.seal (c : PyBiscuit) : PyBiscuit :=
  { c with sealedFlag := true }

/-- `PyBiscuit::to_bytes` (serialization failures map to
`BiscuitSerializationError`; the modelled serializer is total). -/
def PyBiscuit.to_bytes (c : PyBiscuit) : Except PyError (List Nat) :=
  .ok (encChain c)

/-- Modelled from the spec: the text form of the binary envelope (URL-safe
base64 in the wire format; here each byte rendered in decimal followed by
a separator). -/
def encText (bs : List Nat) : List Char :=
  (bs.map (fun n => Nat.toDigits 10 n ++ [','])).flatten

/-- Decode the text form back to bytes; any malformed character fails. -/
def decTextAux (acc : Nat) (hasDigit : Bool) : List Char → Option (List Nat)
  | [] => if hasDigit then none else some []
  | c :: cs =>
    if c = ',' then
      if hasDigit then
        match decTextAux 0 false cs with
        | some ns => some (acc :: ns)
        | none => none
      else none
    else if c.isDigit then decTextAux (acc * 10 + (c.toNat - 48)) true cs
    else none

/-- `PyBiscuit::to_base64` (`src/lib.rs` unwraps: no error raised). -/
def PyBiscuit.to_base64 (c : PyBiscuit) : String :=
  String.mk (encText (encChain c))

/-- `PyBiscuit::from_bytes`: decode the envelope, check the version,
re-derive each block's expected signer and verify the chain against the
root public key; every failure maps to `BiscuitValidationError`. -/
def PyBiscuit.from_bytes (data : List Nat) (rootPk : Nat) :
    Except PyError PyBiscuit :=
  match decChain data with
  | some ((ver, c), []) =>
    if ver = wireVersion then
      if verifyChain rootPk c then .ok c
      else .error (.validationError "signature verification failed")
    else .error (.validationError "unsupported version")
  | some (_, _ :: _) => .error (.validationError "trailing data")
  | none => .error (.validationError "truncated input")

/-- `PyBiscuit::from_base64` (`src/lib.rs`, lines 156–162): decode the
text form, then proceed as `from_bytes`; every failure — including a
malformed text encoding — maps to `BiscuitValidationError`. -/
def PyBiscuit.from_base64 (s : String) (rootPk : Nat) :
    Except PyError PyBiscuit :=
  match decTextAux 0 false s.data with
  | some bytes => PyBiscuit.from_bytes bytes rootPk
  | none => .error (.validationError "invalid text encoding")

/-- `PyBiscuit::block_count`. -/
def PyBiscuit.block_count (c : PyBiscuit) : Nat := c.blocks.length

/-- Print one block's content as Datalog code. -/
def printContent (b : BlockContent) : String :=
  String.intercalate ";\n"
    (b.facts.map printPred ++ b.rules.map printRule ++ b.checks.map printCheck)

/-- `PyBiscuit::block_source`: the block's Datalog text, or none when the
index is out of range. -/
def PyBiscuit.block_source (c : PyBiscuit) (i : Nat) : Option String :=
  (c.blocks.get? i).map (fun b => printContent b.content)

/-! ## `PyAuthorizer` (`src/lib.rs`, lines 194–309) -/

structure PyAuthorizer where
  token : Option PyBiscuit
  facts : List Fact
  rules : List Rule
  checks : List Check
  policies : List Policy
deriving DecidableEq

/-- `PyAuthorizer::new` / `Default`. -/
def PyAuthorizer.new : PyAuthorizer := ⟨none, [], [], [], []⟩

/-- `PyBiscuit::authorizer`: an authorizer holding the token. -/
def PyBiscuit.authorizer (c : PyBiscuit) : PyAuthorizer :=
  ⟨some c, [], [], [], []⟩

/-- `PyAuthorizer::add_fact`. -/
def PyAuthorizer.add_fact (a : PyAuthorizer) (s : String) :
    PyAuthorizer × Except PyError Unit :=
  match parseFactStr s with
  | .ok f => ({ a with facts := a.facts ++ [f] }, .ok ())
  | .error e => (a, .error e)

/-- `PyAuthorizer::add_rule`. -/
def PyAuthorizer.add_rule (a : PyAuthorizer) (s : String) :
    PyAuthorizer × Except PyError Unit :=
  match parseRuleStr s with
  | .ok r => ({ a with rules := a.rules ++ [r] }, .ok ())
  | .error e => (a, .error e)

/-- `PyAuthorizer::add_check`. -/
def PyAuthorizer.add_check (a : PyAuthorizer) (s : String) :
    PyAuthorizer × Except PyError Unit :=
  match parseCheckStr s with
  | .ok c => ({ a with checks := a.checks ++ [c] }, .ok ())
  | .error e => (a, .error e)

/-- `PyAuthorizer::add_policy`. -/
def PyAuthorizer.add_policy (a : PyAuthorizer) (s : String) :
    PyAuthorizer × Except PyError Unit :=
  match parsePolicyStr s with
  | .ok p => ({ a with policies := a.policies ++ [p] }, .ok ())
  | .error e => (a, .error e)

/-- `PyAuthorizer::add_code` (`src/lib.rs`, lines 251–275): parse the
whole chunk first; on failure raise only the first error and push
nothing; on success push all four statement kinds. -/
def PyAuthorizer.add_code (a : PyAuthorizer) (s : String) :
    PyAuthorizer × Except PyError Unit :=
  match parse_source s with
  | .ok r =>
    ({ a with
        facts := a.facts ++ r.facts
        rules := a.rules ++ r.rules
        checks := a.checks ++ r.checks
        policies := a.policies ++ r.policies }, .ok ())
  | .error es => (a, .error (es.headD (.dataLog "parse error")))

/-! ### Authorization (modelled from the spec, §4.4)

Modelled from the spec: the token's visible statements are merged with the
authorizer's local ones; fixpoint evaluation is block-scoped (a rule in
block `i` only reads facts from blocks `0..i`), the authorizer's own
statements and its policies living in the authority scope; every check is
evaluated (block `i`'s checks against the block-`i` world); any failing
check aborts listing all failing checks; otherwise policies are evaluated
in insertion order against the authority world, first match deciding. -/

/-- The evaluation scopes of an authorizer: the authority block merged
with the authorizer's local statements, then each attenuation block. -/
def authScopes (a : PyAuthorizer) : List BlockContent :=
  match a.token with
  | none => [⟨a.facts, a.rules, a.checks⟩]
  | some t =>
    match t.blocks.map Block.content with
    | [] => [⟨a.facts, a.rules, a.checks⟩]
    | b0 :: rest =>
      ⟨b0.facts ++ a.facts, b0.rules ++ a.rules, b0.checks ++ a.checks⟩ :: rest

/-- The world (derived fact set) of each scope: scope `i` starts from the
previous world plus its own facts and closes under the rules of scopes
`0..i`, under the iteration cap. -/
def computeWorlds (prev : List Fact) (accRules : List Rule) :
    List BlockContent → Except PyError (List (List Fact))
  | [] => .ok []
  | s :: rest =>
    let accRules' := accRules ++ s.rules
    match fixFacts evalCap accRules' (s.facts.foldl insertFact prev) with
    | .ok w =>
      match computeWorlds w accRules' rest with
      | .ok ws => .ok (w :: ws)
      | .error e => .error e
    | .error e => .error e

/-- All failing checks, scope by scope. -/
def failingChecks : List BlockContent → List (List Fact) → List Check
  | [], _ => []
  | _, [] => []
  | s :: ss, w :: ws =>
    s.checks.filter (fun c => !(bodyMatches w c.body)) ++ failingChecks ss ws

/-- First-match policy evaluation over the authority world. -/
def policyDecision (w : List Fact) : List Policy → Nat → Except PyError Nat
  | [], _ => .error (.authorization .noMatchingPolicy)
  | p :: ps, i =>
    if bodyMatches w p.body then
      match p.kind with
      | .allow => .ok i
      | .deny => .error (.authorization (.denied i p))
    else policyDecision w ps (i + 1)

/-- `PyAuthorizer::authorize`: returns the index of the matching allow
policy, or an `AuthorizationError` carrying the matching deny policy or
the list of all failing checks.  An inner evaluation failure (the
run-limit overrun) is also surfaced as `AuthorizationError`:
`src/lib.rs` line 306 maps every failure of the inner
`authorizer.authorize()` call to `AuthorizationError`, wrapping the
stringified inner error. -/
def PyAuthorizer.authorize (a : PyAuthorizer) : Except PyError Nat :=
  let ss := authScopes a
  match computeWorlds [] [] ss with
  | .ok ws =>
    match failingChecks ss ws with
    | [] => policyDecision (ws.headD []) a.policies 0
    | failed => .error (.authorization (.failedChecks failed))
  | .error e => .error (.authorization (.evalError e.message))

/-- The effective checks of a chain: every block's checks in order. -/
def effectiveChecks (c : PyBiscuit) : List Check :=
  (c.blocks.map (fun b => b.content.checks)).flatten

/-! ## Key handles (`src/lib.rs`, lines 353–455)

`PyPublicKey::from_bytes`/`from_hex` (and the `PyPrivateKey` versions) map
every failure to Python's `ValueError` (`PyValueError::new_err`), not to
one of the five module exception types.  Modelled from the spec: keys have
32-byte fixed encodings; a key value is modelled as the natural encoded by
those bytes. -/

/-- Byte encoding of a key value (32 bytes, little-endian base 256). -/
def keyToBytes (k : Nat) : List Nat :=
  (List.range 32).map (fun i => k / 256 ^ i % 256)

/-- Decode 32 bytes into a key value. -/
def keyOfBytes (data : List Nat) : Nat :=
  data.foldr (fun b acc => acc * 256 + b) 0

/-- `PyPublicKey::to_bytes`. -/
def publicKeyToBytes (k : Nat) : List Nat := keyToBytes k

/-- `PyPublicKey::from_bytes`: the inner deserializer requires exactly 32
bytes; `src/lib.rs` maps its error to `ValueError`. -/
def publicKeyFromBytes (data : List Nat) : Except PyError Nat :=
  if data.length = 32 then .ok (keyOfBytes data)
  else .error (.valueError "invalid key size")

/-- Value of a hexadecimal digit character. -/
def hexDigitVal (c : Char) : Option Nat :=
  if c.isDigit then some (c.toNat - 48)
  else if 'a' ≤ c ∧ c ≤ 'f' then some (c.toNat - 87)
  else if 'A' ≤ c ∧ c ≤ 'F' then some (c.toNat - 55)
  else none

/-- Decode a hex string to bytes (fails on odd length or bad digit). -/
def hexDecode : List Char → Option (List Nat)
  | [] => some []
  | [_] => none
  | c :: d :: rest =>
    match hexDigitVal c, hexDigitVal d, hexDecode rest with
    | some hi, some lo, some bs => some ((hi * 16 + lo) :: bs)
    | _, _, _ => none

/-- `PyPublicKey::from_hex`: hex-decode then deserialize; both failure
paths raise `ValueError` (`src/lib.rs`, lines 404–415). -/
def publicKeyFromHex (s : String) : Except PyError Nat :=
  match hexDecode s.data with
  | some bytes => publicKeyFromBytes bytes
  | none => .error (.valueError "invalid hex")

/-- `PyPrivateKey::from_bytes`: same shape as the public-key version. -/
def privateKeyFromBytes (data : List Nat) : Except PyError Nat :=
  if data.length = 32 then .ok (keyOfBytes data)
  else .error (.valueError "invalid key size")

/-- `PyPrivateKey::from_hex`: hex-decode then deserialize; both failure
paths raise `ValueError` (`src/lib.rs`, lines 443–454). -/
def privateKeyFromHex (s : String) : Except PyError Nat :=
  match hexDecode s.data with
  | some bytes => privateKeyFromBytes bytes
  | none => .error (.valueError "invalid hex")

/-! ## Concrete objects used to instantiate the theorems -/

/-- Whether an `Except` value is a success. -/
def isOkE : Except ε α → Bool
  | .ok _ => true
  | .error _ => false

/-- A concrete root keypair. -/
def demoKp : PyKeyPair := ⟨7⟩

/-- A builder holding the fact `user("alice")` and the check
`check if user($u)`. -/
def demoBuilder : PyBiscuitBuilder :=
  ((PyBiscuitBuilder.new.add_authority_fact "user(\"alice\")").1.add_authority_check
    "check if user($u)").1

/-- The token built from `demoBuilder` under `demoKp`. -/
def demoToken : PyBiscuit := mkToken demoKp demoBuilder.freeze

/-- A block builder holding the check `check if role("admin")`. -/
def demoBlockBuilder : PyBlockBuilder :=
  ((demoToken.create_block).add_check "check if role(\"admin\")").1

/-- The chain obtained by appending `demoBlockBuilder` to `demoToken`. -/
def demoToken2 : PyBiscuit :=
  ⟨demoToken.blocks ++
    [⟨demoBlockBuilder.freeze, pubOf 1,
      signMsg 0 (blockMsg demoBlockBuilder.freeze (pubOf 1) (lastSig demoToken))⟩],
    false, 1⟩

/-- The §8 scenario builder together with the results of its two `add`
calls. -/
def scenarioBuilder : PyBiscuitBuilder × Except PyError Unit × Except PyError Unit :=
  let (b1, e1) := PyBiscuitBuilder.new.add_authority_fact "user(\"alice\")"
  let (b2, e2) := b1.add_authority_check "check if user($u)"
  (b2, e1, e2)

/-- The §8 scenario: build the token from a root keypair, attach it to a
fresh authorizer, add the one policy, authorize. -/
def scenarioAuthorize (r : PyKeyPair) (policy : String) : Except PyError Nat :=
  match scenarioBuilder.1.build r with
  | .ok t => ((t.authorizer.add_policy policy).1).authorize
  | .error e => .error e

-- Equality of `Except` results is decidable (used to compare observable
-- outcomes on concrete inputs).
deriving instance DecidableEq for Except

/-- The authorizer of `demoToken` with the policy `allow if user("alice")`. -/
def demoAuth1 : PyAuthorizer :=
  (demoToken.authorizer.add_policy "allow if user(\"alice\")").1

/-! ## Serializer round-trip lemmas -/

theorem decBool_enc (b : Bool) (r : List Nat) : decBool (encBool b ++ r) = some (b, r) := by
  cases b <;> rfl

theorem decInt_enc (i : Int) (r : List Nat) : decInt (encInt i ++ r) = some (i, r) := by
  simp [encInt, decInt]

theorem decChars_enc (cs : List Char) (r : List Nat) :
    decChars cs.length (cs.map Char.toNat ++ r) = some (cs, r) := by
  induction cs with
  | nil => rfl
  | cons c cs ih => simp [decChars, ih, Char.ofNat_toNat]

theorem decString_enc (s : String) (r : List Nat) :
    decString (encString s ++ r) = some (s, r) := by
  have h := decChars_enc s.data r
  show (match decChars s.data.length (s.data.map Char.toNat ++ r) with
    | some (cs, r') => some (String.mk cs, r')
    | none => none) = some (s, r)
  rw [h]

theorem decListWith_enc {α : Type} (dec : List Nat → Option (α × List Nat))
    (enc : α → List Nat) (H : ∀ x r, dec (enc x ++ r) = some (x, r)) :
    ∀ (xs : List α) (r : List Nat),
      decListWith dec xs.length ((xs.map enc).flatten ++ r) = some (xs, r) := by
  intro xs
  induction xs with
  | nil => intro r; rfl
  | cons x xs ih =>
    intro r
    simp only [List.map_cons, List.flatten_cons, List.length_cons, List.append_assoc]
    simp [decListWith, H, ih]

theorem decList_enc {α : Type} (dec : List Nat → Option (α × List Nat))
    (enc : α → List Nat) (H : ∀ x r, dec (enc x ++ r) = some (x, r))
    (xs : List α) (r : List Nat) :
    decList dec (encListWith enc xs ++ r) = some (xs, r) := by
  show decList dec (xs.length :: ((xs.map enc).flatten ++ r)) = some (xs, r)
  simp [decList, decNat, decListWith_enc dec enc H]

theorem decNat_single (n : Nat) (r : List Nat) : decNat ([n] ++ r) = some (n, r) := rfl

theorem decTerm_enc (t : Term) (r : List Nat) : decTerm (encTerm t ++ r) = some (t, r) := by
  cases t <;> simp [encTerm, decTerm, decString_enc, decInt_enc, decBool_enc]

theorem decPred_enc (p : Predicate) (r : List Nat) :
    decPred (encPred p ++ r) = some (p, r) := by
  cases p with
  | mk name terms =>
    simp [encPred, decPred, List.append_assoc, decString_enc,
      decList_enc decTerm encTerm decTerm_enc]

theorem decRule_enc (ru : Rule) (r : List Nat) :
    decRule (encRule ru ++ r) = some (ru, r) := by
  cases ru with
  | mk hd body =>
    simp [encRule, decRule, List.append_assoc, decPred_enc,
      decList_enc decPred encPred decPred_enc]

theorem decContent_enc (b : BlockContent) (r : List Nat) :
    decContent (encContent b ++ r) = some (b, r) := by
  cases b with
  | mk fs rs cs =>
    simp [encContent, decContent, List.append_assoc,
      decList_enc decPred encPred decPred_enc,
      decList_enc decRule encRule decRule_enc]

theorem decBlock_enc (b : Block) (r : List Nat) :
    decBlock (encBlock b ++ r) = some (b, r) := by
  cases b with
  | mk content nk sig =>
    simp [encBlock, decBlock, List.append_assoc, decContent_enc, decNat,
      decList_enc decNat (fun n => [n]) decNat_single]

theorem decChain_enc (c : PyBiscuit) (r : List Nat) :
    decChain (encChain c ++ r) = some ((wireVersion, c), r) := by
  cases c with
  | mk bs sealed? ns =>
    simp [encChain, decChain, List.append_assoc, decNat, decBool_enc,
      decList_enc decBlock encBlock decBlock_enc]

/-! ## Authorization lemmas -/

theorem computeWorlds_length (ss : List BlockContent) :
    ∀ (prev : List Fact) (acc : List Rule) (ws : List (List Fact)),
      computeWorlds prev acc ss = .ok ws → ws.length = ss.length := by
  induction ss with
  | nil =>
    intro prev acc ws h
    simp [computeWorlds] at h
    simp [← h]
  | cons s ss ih =>
    intro prev acc ws h
    simp only [computeWorlds] at h
    split at h
    · split at h
      · cases h
        next w ws' heq =>
        simp [ih _ _ _ heq]
      · cases h
    · cases h

theorem computeWorlds_cons_ok (prev : List Fact) (acc : List Rule)
    (s : BlockContent) (ss : List BlockContent) (ws' : List (List Fact)) :
    computeWorlds prev acc (s :: ss) = .ok ws' ↔
      ∃ w ws, fixFacts evalCap (acc ++ s.rules) (s.facts.foldl insertFact prev) = .ok w ∧
        computeWorlds w (acc ++ s.rules) ss = .ok ws ∧ ws' = w :: ws := by
  constructor
  · intro h
    simp only [computeWorlds] at h
    split at h
    · rename_i w hfix
      split at h
      · rename_i ws hrec
        cases h
        exact ⟨w, ws, hfix, hrec, rfl⟩
      · cases h
    · cases h
  · rintro ⟨w, ws, h1, h2, rfl⟩
    simp [computeWorlds, h1, h2]

theorem computeWorlds_cons_error (prev : List Fact) (acc : List Rule)
    (s : BlockContent) (ss : List BlockContent) (e : PyError) :
    computeWorlds prev acc (s :: ss) = .error e ↔
      fixFacts evalCap (acc ++ s.rules) (s.facts.foldl insertFact prev) = .error e ∨
        ∃ w, fixFacts evalCap (acc ++ s.rules) (s.facts.foldl insertFact prev) = .ok w ∧
          computeWorlds w (acc ++ s.rules) ss = .error e := by
  constructor
  · intro h
    simp only [computeWorlds] at h
    split at h
    · rename_i w hfix
      split at h
      · cases h
      · rename_i e' hrec
        cases h
        exact .inr ⟨w, hfix, hrec⟩
    · rename_i e' hfix
      cases h
      exact .inl hfix
  · rintro (h1 | ⟨w, h1, h2⟩)
    · simp [computeWorlds, h1]
    · simp [computeWorlds, h1, h2]

theorem computeWorlds_snoc (ss : List BlockContent) (s : BlockContent) :
    ∀ (prev : List Fact) (acc : List Rule) (ws' : List (List Fact)),
      computeWorlds prev acc (ss ++ [s]) = .ok ws' →
      ∃ ws w, computeWorlds prev acc ss = .ok ws ∧ ws' = ws ++ [w] := by
  induction ss with
  | nil =>
    intro prev acc ws' h
    rw [List.nil_append] at h
    obtain ⟨w, ws, hfix, hrec, rfl⟩ := (computeWorlds_cons_ok _ _ _ _ _).mp h
    simp only [computeWorlds] at hrec
    cases hrec
    exact ⟨[], w, rfl, rfl⟩
  | cons s0 ss ih =>
    intro prev acc ws' h
    rw [List.cons_append] at h
    obtain ⟨w0, ws'', hfix, hrec, rfl⟩ := (computeWorlds_cons_ok _ _ _ _ _).mp h
    obtain ⟨ws1, w, h1, h2⟩ := ih _ _ _ hrec
    refine ⟨w0 :: ws1, w, ?_, ?_⟩
    · exact (computeWorlds_cons_ok _ _ _ _ _).mpr ⟨w0, ws1, hfix, h1, rfl⟩
    · simp [h2]

theorem fixFacts_error_kind (fuel : Nat) :
    ∀ (rules : List Rule) (facts : List Fact) (e : PyError),
      fixFacts fuel rules facts = .error e → e.kind = .dataLog := by
  induction fuel with
  | zero =>
    intro rules facts e h
    simp [fixFacts] at h
    simp [← h, PyError.kind]
  | succ fuel ih =>
    intro rules facts e h
    simp only [fixFacts] at h
    by_cases hc : stepFacts rules facts = facts
    · rw [if_pos hc] at h; cases h
    · rw [if_neg hc] at h
      exact ih _ _ _ h

theorem computeWorlds_error_kind (ss : List BlockContent) :
    ∀ (prev : List Fact) (acc : List Rule) (e : PyError),
      computeWorlds prev acc ss = .error e → e.kind = .dataLog := by
  induction ss with
  | nil => intro prev acc e h; simp [computeWorlds] at h
  | cons s ss ih =>
    intro prev acc e h
    rcases (computeWorlds_cons_error _ _ _ _ _).mp h with h1 | ⟨w, _, h2⟩
    · exact fixFacts_error_kind _ _ _ _ h1
    · exact ih _ _ _ h2

theorem computeWorlds_snoc_error (ss : List BlockContent) (s : BlockContent) :
    ∀ (prev : List Fact) (acc : List Rule) (e : PyError),
      computeWorlds prev acc ss = .error e →
      computeWorlds prev acc (ss ++ [s]) = .error e := by
  induction ss with
  | nil => intro prev acc e h; simp [computeWorlds] at h
  | cons s0 ss ih =>
    intro prev acc e h
    rw [List.cons_append]
    rcases (computeWorlds_cons_error _ _ _ _ _).mp h with h1 | ⟨w, h1, h2⟩
    · exact (computeWorlds_cons_error _ _ _ _ _).mpr (.inl h1)
    · exact (computeWorlds_cons_error _ _ _ _ _).mpr (.inr ⟨w, h1, ih _ _ _ h2⟩)

theorem failingChecks_snoc (ss : List BlockContent) (s : BlockContent) :
    ∀ (ws : List (List Fact)) (w : List Fact), ws.length = ss.length →
      failingChecks (ss ++ [s]) (ws ++ [w]) =
        failingChecks ss ws ++ s.checks.filter (fun c => !(bodyMatches w c.body)) := by
  induction ss with
  | nil =>
    intro ws w hlen
    have hws : ws = [] := List.length_eq_zero.mp hlen
    subst hws
    simp [failingChecks]
  | cons s0 ss ih =>
    intro ws w hlen
    cases ws with
    | nil => simp at hlen
    | cons w0 ws' =>
      simp only [List.length_cons] at hlen
      have hlen' : ws'.length = ss.length := by omega
      rw [List.cons_append, List.cons_append]
      show List.filter (fun c => !(bodyMatches w0 c.body)) s0.checks ++
          failingChecks (ss ++ [s]) (ws' ++ [w]) = _
      rw [ih ws' w hlen']
      simp [failingChecks, List.append_assoc]

theorem failingChecks_mem (ss : List BlockContent) :
    ∀ (ws : List (List Fact)) (ch : Check),
      ch ∈ failingChecks ss ws ↔
        ∃ i s w, ss.get? i = some s ∧ ws.get? i = some w ∧
          ch ∈ s.checks ∧ bodyMatches w ch.body = false := by
  induction ss with
  | nil =>
    intro ws ch
    simp [failingChecks]
  | cons s0 ss ih =>
    intro ws ch
    cases ws with
    | nil =>
      constructor
      · intro h; simp [failingChecks] at h
      · rintro ⟨i, s, w, _, h2, _⟩; simp at h2
    | cons w0 ws' =>
      show ch ∈ List.filter (fun c => !(bodyMatches w0 c.body)) s0.checks ++
          failingChecks ss ws' ↔ _
      rw [List.mem_append, List.mem_filter, ih ws' ch]
      constructor
      · rintro (⟨hch, hb⟩ | ⟨i, s, w, h1, h2, h3, h4⟩)
        · refine ⟨0, s0, w0, rfl, rfl, hch, ?_⟩
          simpa using hb
        · exact ⟨i + 1, s, w, by simpa using h1, by simpa using h2, h3, h4⟩
      · rintro ⟨i, s, w, h1, h2, h3, h4⟩
        cases i with
        | zero =>
          left
          simp only [List.get?_cons_zero, Option.some.injEq] at h1 h2
          subst h1; subst h2
          exact ⟨h3, by simpa using h4⟩
        | succ i' =>
          right
          exact ⟨i', s, w, by simpa using h1, by simpa using h2, h3, h4⟩

theorem policyDecision_first (w : List Fact) (p : Policy) :
    ∀ (ps : List Policy) (i k : Nat), ps.get? i = some p →
      bodyMatches w p.body = true →
      (∀ j q, j < i → ps.get? j = some q → bodyMatches w q.body = false) →
      policyDecision w ps k =
        (match p.kind with
         | .allow => .ok (k + i)
         | .deny => .error (.authorization (.denied (k + i) p))) := by
  intro ps
  induction ps with
  | nil => intro i k h; cases h
  | cons p0 ps ih =>
    intro i k hget hsat hmin
    cases i with
    | zero =>
      simp only [List.get?_cons_zero, Option.some.injEq] at hget
      subst hget
      simp only [policyDecision, hsat, if_true]
      cases hk : p0.kind <;> simp [hk]
    | succ i' =>
      simp only [List.get?_cons_succ] at hget
      have hp0 : bodyMatches w p0.body = false :=
        hmin 0 p0 (Nat.succ_pos i') rfl
      simp only [policyDecision, hp0, Bool.false_eq_true, if_false]
      rw [ih i' (k + 1) hget hsat ?_]
      · have hkk : k + 1 + i' = k + (i' + 1) := by omega
        cases hk : p0.kind <;> simp [hk, hkk]
      · intro j q hj hq
        exact hmin (j + 1) q (by omega) (by simpa using hq)

theorem policyDecision_error_kind (w : List Fact) :
    ∀ (ps : List Policy) (k : Nat) (e : PyError),
      policyDecision w ps k = .error e → e.kind = .authorization := by
  intro ps
  induction ps with
  | nil =>
    intro k e h
    simp [policyDecision] at h
    simp [← h, PyError.kind]
  | cons p0 ps ih =>
    intro k e h
    simp only [policyDecision] at h
    by_cases hb : bodyMatches w p0.body = true
    · rw [if_pos hb] at h
      cases hk : p0.kind with
      | allow => rw [hk] at h; cases h
      | deny =>
        rw [hk] at h
        cases h
        rfl
    · rw [if_neg hb] at h
      exact ih _ _ h

theorem authScopes_policies (A : PyAuthorizer) (ps : List Policy) :
    authScopes { A with policies := ps } = authScopes A := rfl

theorem authScopes_cons (A : PyAuthorizer) :
    ∃ s0 tl, authScopes A = s0 :: tl := by
  unfold authScopes
  split
  · exact ⟨_, _, rfl⟩
  · split
    · exact ⟨_, _, rfl⟩
    · exact ⟨_, _, rfl⟩

theorem authScopes_swap_token (A : PyAuthorizer) (c c' : PyBiscuit) (nb : Block)
    (htok : A.token = some c) (hbs : c'.blocks = c.blocks ++ [nb])
    (hne : c.blocks ≠ []) :
    authScopes { A with token := some c' } = authScopes A ++ [nb.content] := by
  rcases hcb : c.blocks with _ | ⟨b0, bs⟩
  · exact absurd hcb hne
  · simp [authScopes, htok, hbs, hcb, List.map_append]

theorem authorize_ok_iff (A : PyAuthorizer) (i : Nat) :
    A.authorize = .ok i ↔
      ∃ ws, computeWorlds [] [] (authScopes A) = .ok ws ∧
        failingChecks (authScopes A) ws = [] ∧
        policyDecision (ws.headD []) A.policies 0 = .ok i := by
  constructor
  · intro h
    simp only [PyAuthorizer.authorize] at h
    split at h
    · rename_i ws hw
      split at h
      · rename_i hf
        exact ⟨ws, hw, hf, h⟩
      · cases h
    · cases h
  · rintro ⟨ws, h1, h2, h3⟩
    simp [PyAuthorizer.authorize, h1, h2]
    simpa using h3

theorem authorize_pass (A : PyAuthorizer) (ws : List (List Fact))
    (hw : computeWorlds [] [] (authScopes A) = .ok ws)
    (hf : failingChecks (authScopes A) ws = []) :
    A.authorize = policyDecision (ws.headD []) A.policies 0 := by
  simp [PyAuthorizer.authorize, hw, hf]

theorem authorize_failed (A : PyAuthorizer) (ws : List (List Fact))
    (hw : computeWorlds [] [] (authScopes A) = .ok ws)
    (hf : failingChecks (authScopes A) ws ≠ []) :
    A.authorize =
      .error (.authorization (.failedChecks (failingChecks (authScopes A) ws))) := by
  cases hc : failingChecks (authScopes A) ws with
  | nil => exact absurd hc hf
  | cons c cs => simp [PyAuthorizer.authorize, hw, hc]

theorem authorize_error_on_worlds_error (A : PyAuthorizer) (e : PyError)
    (hw : computeWorlds [] [] (authScopes A) = .error e) :
    A.authorize = .error (.authorization (.evalError e.message)) := by
  simp [PyAuthorizer.authorize, hw]

/-! ## Parse-error kinds -/

theorem parseFactStr_error_kind (s : String) (e : PyError) :
    parseFactStr s = .error e → e.kind = .dataLog := by
  intro h
  unfold parseFactStr at h
  repeat' split at h
  all_goals first | (cases h; rfl) | cases h


theorem parseRuleStr_error_kind (s : String) (e : PyError) :
    parseRuleStr s = .error e → e.kind = .dataLog := by
  intro h
  unfold parseRuleStr at h
  repeat' split at h
  all_goals first | (cases h; rfl) | cases h


theorem parseCheckStr_error_kind (s : String) (e : PyError) :
    parseCheckStr s = .error e → e.kind = .dataLog := by
  intro h
  unfold parseCheckStr at h
  repeat' split at h
  all_goals first | (cases h; rfl) | cases h


theorem parsePolicyStr_error_kind (s : String) (e : PyError) :
    parsePolicyStr s = .error e → e.kind = .dataLog := by
  intro h
  unfold parsePolicyStr at h
  repeat' split at h
  all_goals first | (cases h; rfl) | cases h


theorem parseStatement_error_kind (s : String) (e : PyError) :
    parseStatement s = .error e → e.kind = .dataLog := by
  intro h
  unfold parseStatement at h
  split at h
  · cases h
  · split at h
    · cases h
    · split at h
      · cases h
      · split at h
        · cases h
        · rename_i e' heq
          cases h
          exact parseFactStr_error_kind _ _ heq

theorem parseStatements_error_kinds (l : List String) :
    ∀ (acc : SourceResult) (es : List PyError),
      parseStatements acc l = .error es → ∀ e ∈ es, e.kind = .dataLog := by
  induction l with
  | nil => intro acc es h; cases h
  | cons s l ih =>
    intro acc es h
    simp only [parseStatements] at h
    split at h
    · rename_i upd hupd
      split at h
      · cases h
      · rename_i es' heq
        cases h
        exact ih _ _ heq
    · rename_i e0 hstmt
      split at h
      · cases h
        intro e he
        simp only [List.mem_singleton] at he
        subst he
        exact parseStatement_error_kind _ _ hstmt
      · rename_i es' heq
        cases h
        intro e he
        rcases List.mem_cons.mp he with rfl | hmem
        · exact parseStatement_error_kind _ _ hstmt
        · exact ih _ _ heq e hmem

theorem parse_source_headD_kind (s : String) (es : List PyError)
    (h : parse_source s = .error es) :
    (es.headD (.dataLog "parse error")).kind = .dataLog := by
  cases es with
  | nil => rfl
  | cons e es' =>
    exact parseStatements_error_kinds _ _ _ h e (List.mem_cons_self e es')


theorem from_bytes_error_kind (d : List Nat) (pk : Nat) (e : PyError) :
    PyBiscuit.from_bytes d pk = .error e → e.kind = .validationError := by
  intro h
  unfold PyBiscuit.from_bytes at h
  repeat' split at h
  all_goals first | (cases h; rfl) | cases h

/-! ## Claim theorems -/

/-- C6: for every token chain `c` and block builder `bb`, appending to the
chain returned by `c.seal()` always fails with `BiscuitBuildError` (a
sealed chain is non-extendable). -/
theorem claim6_sealed_append_fails (c : PyBiscuit) (bb : PyBlockBuilder) :
    (c.seal).append bb =
      .error (.buildError "cannot append a block to a sealed token") := rfl

/-- C8: `append` never mutates the receiver: on success the new chain
extends the old block sequence by exactly one block (sharing the prefix),
and every block source observable on `c` is unchanged on the new chain;
`build` is all-or-nothing, producing exactly the token frozen from the
builder's current state.  (The receiver itself is untouched by
construction: `append` and `build` take `&self` in `src/lib.rs` and are
pure functions of it here; on failure no chain is produced at all.) -/
theorem claim8_append_pure (c c' : PyBiscuit) (bb : PyBlockBuilder)
    (b : PyBiscuitBuilder) (r : PyKeyPair) :
    (c.append bb = .ok c' →
      c'.blocks = c.blocks ++
        [⟨bb.freeze, pubOf (c.nextSecret + 1),
          signMsg c.nextSecret
            (blockMsg bb.freeze (pubOf (c.nextSecret + 1)) (lastSig c))⟩] ∧
      ∀ i, i < c.block_count → c'.block_source i = c.block_source i) ∧
    (∀ t, b.build r = .ok t → t = mkToken r b.freeze) := by
  constructor
  · intro happ
    cases hsf : c.sealedFlag
    · simp only [PyBiscuit.append, hsf, Bool.false_eq_true, if_false] at happ
      cases happ
      constructor
      · rfl
      · intro i hi
        simp only [PyBiscuit.block_source]
        rw [List.get?_append hi]
    · simp [PyBiscuit.append, hsf] at happ
  · intro t h
    cases h
    rfl

/-- C8 witness: at the concrete chain `demoToken` with the concrete block
builder `demoBlockBuilder`, the appended chain preserves block 0's
source. -/
theorem claim8_witness :
    demoToken2.block_source 0 = demoToken.block_source 0 :=
  ((claim8_append_pure demoToken demoToken2 demoBlockBuilder
      PyBiscuitBuilder.new demoKp).1 rfl).2 0 (by decide)

/-- C10: when any `add` operation fails with `DataLogError`, the
accumulated facts, rules, checks and policies are left exactly as they
were: nothing from the rejected input is pushed (in `add_code` the whole
chunk is parsed before anything is pushed, so even statements that parsed
successfully are discarded). -/
theorem claim10_failed_add_frame :
    (∀ (a : PyAuthorizer) (s : String) (e : PyError),
      (a.add_fact s).2 = .error e → (a.add_fact s).1 = a) ∧
    (∀ (a : PyAuthorizer) (s : String) (e : PyError),
      (a.add_rule s).2 = .error e → (a.add_rule s).1 = a) ∧
    (∀ (a : PyAuthorizer) (s : String) (e : PyError),
      (a.add_check s).2 = .error e → (a.add_check s).1 = a) ∧
    (∀ (a : PyAuthorizer) (s : String) (e : PyError),
      (a.add_policy s).2 = .error e → (a.add_policy s).1 = a) ∧
    (∀ (a : PyAuthorizer) (s : String) (e : PyError),
      (a.add_code s).2 = .error e → (a.add_code s).1 = a) ∧
    (∀ (b : PyBiscuitBuilder) (s : String) (e : PyError),
      (b.add_authority_fact s).2 = .error e → (b.add_authority_fact s).1 = b) ∧
    (∀ (b : PyBiscuitBuilder) (s : String) (e : PyError),
      (b.add_authority_rule s).2 = .error e → (b.add_authority_rule s).1 = b) ∧
    (∀ (b : PyBiscuitBuilder) (s : String) (e : PyError),
      (b.add_authority_check s).2 = .error e → (b.add_authority_check s).1 = b) ∧
    (∀ (bb : PyBlockBuilder) (s : String) (e : PyError),
      (bb.add_fact s).2 = .error e → (bb.add_fact s).1 = bb) ∧
    (∀ (bb : PyBlockBuilder) (s : String) (e : PyError),
      (bb.add_rule s).2 = .error e → (bb.add_rule s).1 = bb) ∧
    (∀ (bb : PyBlockBuilder) (s : String) (e : PyError),
      (bb.add_check s).2 = .error e → (bb.add_check s).1 = bb) ∧
    (∀ (bb : PyBlockBuilder) (s : String) (e : PyError),
      (bb.add_code s).2 = .error e → (bb.add_code s).1 = bb) := by
  refine ⟨?_, ?_, ?_, ?_, ?_, ?_, ?_, ?_, ?_, ?_, ?_, ?_⟩
  · intro a s e h
    cases hp : parseFactStr s <;> simp [PyAuthorizer.add_fact, hp] at h ⊢
  · intro a s e h
    cases hp : parseRuleStr s <;> simp [PyAuthorizer.add_rule, hp] at h ⊢
  · intro a s e h
    cases hp : parseCheckStr s <;> simp [PyAuthorizer.add_check, hp] at h ⊢
  · intro a s e h
    cases hp : parsePolicyStr s <;> simp [PyAuthorizer.add_policy, hp] at h ⊢
  · intro a s e h
    cases hp : parse_source s <;> simp [PyAuthorizer.add_code, hp] at h ⊢
  · intro b s e h
    cases hp : parseFactStr s <;>
      simp [PyBiscuitBuilder.add_authority_fact, hp] at h ⊢
  · intro b s e h
    cases hp : parseRuleStr s <;>
      simp [PyBiscuitBuilder.add_authority_rule, hp] at h ⊢
  · intro b s e h
    cases hp : parseCheckStr s <;>
      simp [PyBiscuitBuilder.add_authority_check, hp] at h ⊢
  · intro bb s e h
    cases hp : parseFactStr s <;> simp [PyBlockBuilder.add_fact, hp] at h ⊢
  · intro bb s e h
    cases hp : parseRuleStr s <;> simp [PyBlockBuilder.add_rule, hp] at h ⊢
  · intro bb s e h
    cases hp : parseCheckStr s <;> simp [PyBlockBuilder.add_check, hp] at h ⊢
  · intro bb s e h
    cases hp : parse_source s <;> simp [PyBlockBuilder.add_code, hp] at h ⊢

/-- C10 witness: `add_code` with a chunk whose first statement parses and
whose second does not fails and leaves the authorizer untouched. -/
theorem claim10_witness :
    (PyAuthorizer.new.add_code "user(\"a\");???bad").1 = PyAuthorizer.new :=
  claim10_failed_add_frame.2.2.2.2.1 PyAuthorizer.new "user(\"a\");???bad"
    (.dataLog "failed to parse fact") rfl

/-- C9 counterexample: builders are not consumed.  `build` takes `&self`
(`src/lib.rs`, line 40) and `append` receives a `Clone` of the
`PyBlockBuilder` (lines 116, 313), so the same builder produces a first
token, can still be mutated, and then produces a second (different)
token; likewise the same block builder is appended twice. -/
theorem claim9_counterexample :
    isOkE (PyBiscuitBuilder.new.build demoKp) = true ∧
    isOkE (((PyBiscuitBuilder.new.add_authority_fact "admin(true)").1).build demoKp) = true ∧
    PyBiscuitBuilder.new.build demoKp ≠
      ((PyBiscuitBuilder.new.add_authority_fact "admin(true)").1).build demoKp ∧
    isOkE (demoToken.append demoBlockBuilder) = true ∧
    isOkE (demoToken2.append demoBlockBuilder) = true := by
  refine ⟨rfl, rfl, ?_, rfl, rfl⟩
  decide

/-- C9 (amended): builders are not consumed by `build`/`append`: `build`
borrows the builder and `append` clones the block builder, so the same
builder may be handed to `build`/`append` again and produce further
tokens or blocks (`build` always succeeds, and `append` succeeds on every
unsealed chain). -/
theorem claim9_builders_reusable :
    (∀ (b : PyBiscuitBuilder) (r : PyKeyPair), isOkE (b.build r) = true) ∧
    (∀ (c : PyBiscuit) (bb : PyBlockBuilder), c.sealedFlag = false →
      isOkE (c.append bb) = true) := by
  constructor
  · intro b r; rfl
  · intro c bb h
    simp [PyBiscuit.append, h, isOkE]

/-- C9 witness: the amended statement at the concrete unsealed chain
`demoToken` and block builder `demoBlockBuilder`. -/
theorem claim9_witness :
    demoToken.sealedFlag = false ∧ isOkE (demoToken.append demoBlockBuilder) = true :=
  ⟨rfl, claim9_builders_reusable.2 demoToken demoBlockBuilder rfl⟩

/-- C7 counterexample: `PublicKey::from_bytes` on a wrong-sized input
fails with Python's `ValueError` (`src/lib.rs`, lines 396–402 map the
error through `PyValueError::new_err`), which is not one of the five
typed error kinds exported by the module. -/
theorem claim7_counterexample :
    publicKeyFromBytes [] = .error (.valueError "invalid key size") ∧
    (PyError.valueError "invalid key size").kind ∉ fiveErrorKinds := by
  constructor
  · rfl
  · decide

/-- C7 (amended): every failing call of the binding's fallible operations
surfaces one of the five typed error kinds carrying a human-readable
message — the `add_*` methods raise `DataLogError`; `build` and `append`
raise `BiscuitBuildError`; `from_bytes` and `from_base64` raise
`BiscuitValidationError`; `to_bytes` raises `BiscuitSerializationError`;
`authorize` raises `AuthorizationError` (also for an inner evaluation
failure such as the run-limit, per `src/lib.rs` line 306) — except key
deserialization (`PublicKey`/`PrivateKey` `from_bytes`/`from_hex`), which
surfaces `ValueError`; `seal()` and `to_base64()` never raise (they unwrap
the inner result; in the model they are total, as are `build` and
`to_bytes`, whose serialization cannot fail, so their conjuncts hold
vacuously). -/
theorem claim7_error_kinds :
    (∀ (a : PyAuthorizer) (s : String) (e : PyError),
      (a.add_fact s).2 = .error e → e.kind = .dataLog) ∧
    (∀ (a : PyAuthorizer) (s : String) (e : PyError),
      (a.add_rule s).2 = .error e → e.kind = .dataLog) ∧
    (∀ (a : PyAuthorizer) (s : String) (e : PyError),
      (a.add_check s).2 = .error e → e.kind = .dataLog) ∧
    (∀ (a : PyAuthorizer) (s : String) (e : PyError),
      (a.add_policy s).2 = .error e → e.kind = .dataLog) ∧
    (∀ (a : PyAuthorizer) (s : String) (e : PyError),
      (a.add_code s).2 = .error e → e.kind = .dataLog) ∧
    (∀ (b : PyBiscuitBuilder) (s : String) (e : PyError),
      (b.add_authority_fact s).2 = .error e → e.kind = .dataLog) ∧
    (∀ (b : PyBiscuitBuilder) (s : String) (e : PyError),
      (b.add_authority_rule s).2 = .error e → e.kind = .dataLog) ∧
    (∀ (b : PyBiscuitBuilder) (s : String) (e : PyError),
      (b.add_authority_check s).2 = .error e → e.kind = .dataLog) ∧
    (∀ (bb : PyBlockBuilder) (s : String) (e : PyError),
      (bb.add_fact s).2 = .error e → e.kind = .dataLog) ∧
    (∀ (bb : PyBlockBuilder) (s : String) (e : PyError),
      (bb.add_rule s).2 = .error e → e.kind = .dataLog) ∧
    (∀ (bb : PyBlockBuilder) (s : String) (e : PyError),
      (bb.add_check s).2 = .error e → e.kind = .dataLog) ∧
    (∀ (bb : PyBlockBuilder) (s : String) (e : PyError),
      (bb.add_code s).2 = .error e → e.kind = .dataLog) ∧
    (∀ (b : PyBiscuitBuilder) (r : PyKeyPair) (e : PyError),
      b.build r = .error e → e.kind = .buildError) ∧
    (∀ (c : PyBiscuit) (bb : PyBlockBuilder) (e : PyError),
      c.append bb = .error e → e.kind = .buildError) ∧
    (∀ (d : List Nat) (pk : Nat) (e : PyError),
      PyBiscuit.from_bytes d pk = .error e → e.kind = .validationError) ∧
    (∀ (s : String) (pk : Nat) (e : PyError),
      PyBiscuit.from_base64 s pk = .error e → e.kind = .validationError) ∧
    (∀ (c : PyBiscuit) (e : PyError),
      c.to_bytes = .error e → e.kind = .serializationError) ∧
    (∀ (a : PyAuthorizer) (e : PyError),
      a.authorize = .error e → e.kind = .authorization) ∧
    (∀ (d : List Nat) (e : PyError),
      publicKeyFromBytes d = .error e → e.kind = .valueError) ∧
    (∀ (s : String) (e : PyError),
      publicKeyFromHex s = .error e → e.kind = .valueError) ∧
    (∀ (d : List Nat) (e : PyError),
      privateKeyFromBytes d = .error e → e.kind = .valueError) ∧
    (∀ (s : String) (e : PyError),
      privateKeyFromHex s = .error e → e.kind = .valueError) := by
  refine ⟨?_, ?_, ?_, ?_, ?_, ?_, ?_, ?_, ?_, ?_, ?_, ?_, ?_, ?_, ?_, ?_, ?_, ?_,
    ?_, ?_, ?_, ?_⟩
  · intro a s e h
    cases hp : parseFactStr s <;> simp [PyAuthorizer.add_fact, hp] at h
    subst h; exact parseFactStr_error_kind _ _ hp
  · intro a s e h
    cases hp : parseRuleStr s <;> simp [PyAuthorizer.add_rule, hp] at h
    subst h; exact parseRuleStr_error_kind _ _ hp
  · intro a s e h
    cases hp : parseCheckStr s <;> simp [PyAuthorizer.add_check, hp] at h
    subst h; exact parseCheckStr_error_kind _ _ hp
  · intro a s e h
    cases hp : parsePolicyStr s <;> simp [PyAuthorizer.add_policy, hp] at h
    subst h; exact parsePolicyStr_error_kind _ _ hp
  · intro a s e h
    cases hp : parse_source s <;> simp [PyAuthorizer.add_code, hp] at h
    subst h; simpa using parse_source_headD_kind _ _ hp
  · intro b s e h
    cases hp : parseFactStr s <;>
      simp [PyBiscuitBuilder.add_authority_fact, hp] at h
    subst h; exact parseFactStr_error_kind _ _ hp
  · intro b s e h
    cases hp : parseRuleStr s <;>
      simp [PyBiscuitBuilder.add_authority_rule, hp] at h
    subst h; exact parseRuleStr_error_kind _ _ hp
  · intro b s e h
    cases hp : parseCheckStr s <;>
      simp [PyBiscuitBuilder.add_authority_check, hp] at h
    subst h; exact parseCheckStr_error_kind _ _ hp
  · intro bb s e h
    cases hp : parseFactStr s <;> simp [PyBlockBuilder.add_fact, hp] at h
    subst h; exact parseFactStr_error_kind _ _ hp
  · intro bb s e h
    cases hp : parseRuleStr s <;> simp [PyBlockBuilder.add_rule, hp] at h
    subst h; exact parseRuleStr_error_kind _ _ hp
  · intro bb s e h
    cases hp : parseCheckStr s <;> simp [PyBlockBuilder.add_check, hp] at h
    subst h; exact parseCheckStr_error_kind _ _ hp
  · intro bb s e h
    cases hp : parse_source s <;> simp [PyBlockBuilder.add_code, hp] at h
    subst h; simpa using parse_source_headD_kind _ _ hp
  · intro b r e h
    simp [PyBiscuitBuilder.build] at h
  · intro c bb e h
    cases hsf : c.sealedFlag <;> simp [PyBiscuit.append, hsf] at h
    subst h; rfl
  · exact from_bytes_error_kind
  · intro s pk e h
    unfold PyBiscuit.from_base64 at h
    split at h
    · exact from_bytes_error_kind _ _ _ h
    · cases h; rfl
  · intro c e h
    simp [PyBiscuit.to_bytes] at h
  · intro a e h
    simp only [PyAuthorizer.authorize] at h
    split at h
    · split at h
      · exact policyDecision_error_kind _ _ _ _ h
      · cases h; rfl
    · cases h; rfl
  · intro d e h
    unfold publicKeyFromBytes at h
    split at h
    · cases h
    · cases h; rfl
  · intro s e h
    unfold publicKeyFromHex at h
    split at h
    · unfold publicKeyFromBytes at h
      split at h
      · cases h
      · cases h; rfl
    · cases h; rfl
  · intro d e h
    unfold privateKeyFromBytes at h
    split at h
    · cases h
    · cases h; rfl
  · intro s e h
    unfold privateKeyFromHex at h
    split at h
    · unfold privateKeyFromBytes at h
      split at h
      · cases h
      · cases h; rfl
    · cases h; rfl

/-- C7 witness: the amended statement at a concrete failing key
deserialization. -/
theorem claim7_witness :
    ∃ e, publicKeyFromBytes ([] : List Nat) = .error e ∧ e.kind = .valueError := by
  obtain ⟨-, -, -, -, -, -, -, -, -, -, -, -, -, -, -, -, -, -, hpk, -, -, -⟩ :=
    claim7_error_kinds
  exact ⟨.valueError "invalid key size", rfl, hpk [] _ rfl⟩

/-- C3: when every check passes, policies are evaluated in insertion
order and the first matching policy decides: a matching allow policy at
index `i` makes `authorize` return `i`, a matching deny policy makes it
fail with an `AuthorizationError` naming that policy; in particular a
matching deny policy placed before a matching allow policy denies citing
the deny policy. -/
theorem claim3_policy_order (A : PyAuthorizer) (ws : List (List Fact))
    (hw : computeWorlds [] [] (authScopes A) = .ok ws)
    (hok : failingChecks (authScopes A) ws = []) :
    (∀ i p, A.policies.get? i = some p →
      bodyMatches (ws.headD []) p.body = true →
      (∀ j q, j < i → A.policies.get? j = some q →
        bodyMatches (ws.headD []) q.body = false) →
      (p.kind = .allow → A.authorize = .ok i) ∧
      (p.kind = .deny →
        A.authorize = .error (.authorization (.denied i p)))) ∧
    (∀ b1 b2, bodyMatches (ws.headD []) b1 = true →
      ({ A with policies := [⟨.deny, b1⟩, ⟨.allow, b2⟩] } : PyAuthorizer).authorize =
        .error (.authorization (.denied 0 ⟨.deny, b1⟩))) := by
  constructor
  · intro i p hget hsat hmin
    have hpd := policyDecision_first (ws.headD []) p A.policies i 0 hget hsat hmin
    have hauth := authorize_pass A ws hw hok
    constructor
    · intro hk
      rw [hauth, hpd, hk]
      simp
    · intro hk
      rw [hauth, hpd, hk]
      simp
  · intro b1 b2 hsat
    have hw' : computeWorlds [] []
        (authScopes { A with policies := [⟨.deny, b1⟩, ⟨.allow, b2⟩] }) = .ok ws := by
      rw [authScopes_policies]; exact hw
    have hok' : failingChecks
        (authScopes { A with policies := [⟨.deny, b1⟩, ⟨.allow, b2⟩] }) ws = [] := by
      rw [authScopes_policies]; exact hok
    rw [authorize_pass _ ws hw' hok']
    show policyDecision (ws.headD []) [⟨.deny, b1⟩, ⟨.allow, b2⟩] 0 = _
    simp only [policyDecision]
    rw [if_pos hsat]

/-- C3 witness: at the concrete authorizer `demoAuth1` (all checks pass,
first policy matches and allows) the theorem yields index 0. -/
theorem claim3_witness : demoAuth1.authorize = .ok 0 :=
  ((claim3_policy_order demoAuth1 [[⟨"user", [Term.str "alice"]⟩]] rfl rfl).1 0
    ⟨.allow, [⟨"user", [Term.str "alice"]⟩]⟩ rfl rfl
    (fun j _ hj _ => absurd hj (Nat.not_lt_zero j))).1 rfl

/-- C4: when at least one check (token-level or authorizer-level) has no
satisfying derivation, `authorize` fails with an `AuthorizationError`
enumerating all failing checks — a check is in the reported list exactly
when it fails in its scope — and no policy is evaluated: the outcome is
the same for every policy list. -/
theorem claim4_failing_checks (A : PyAuthorizer) (ws : List (List Fact))
    (hw : computeWorlds [] [] (authScopes A) = .ok ws)
    (hf : failingChecks (authScopes A) ws ≠ []) :
    A.authorize =
      .error (.authorization (.failedChecks (failingChecks (authScopes A) ws))) ∧
    (∀ ch, ch ∈ failingChecks (authScopes A) ws ↔
      ∃ i s w, (authScopes A).get? i = some s ∧ ws.get? i = some w ∧
        ch ∈ s.checks ∧ bodyMatches w ch.body = false) ∧
    (∀ ps, ({ A with policies := ps } : PyAuthorizer).authorize =
      .error (.authorization (.failedChecks (failingChecks (authScopes A) ws)))) := by
  refine ⟨authorize_failed A ws hw hf, fun ch => failingChecks_mem _ _ _, fun ps => ?_⟩
  have h1 : computeWorlds [] [] (authScopes { A with policies := ps }) = .ok ws := by
    rw [authScopes_policies]; exact hw
  have h2 : failingChecks (authScopes { A with policies := ps }) ws ≠ [] := by
    rw [authScopes_policies]; exact hf
  have h3 := authorize_failed { A with policies := ps } ws h1 h2
  rw [h3, authScopes_policies]

/-- C4 witness: the authorizer of `demoToken2`, whose appended block's
check `check if role("admin")` fails, reports exactly that check. -/
theorem claim4_witness :
    demoToken2.authorizer.authorize =
      .error (.authorization (.failedChecks
        [⟨⟨"query", []⟩, [⟨"role", [Term.str "admin"]⟩]⟩])) :=
  (claim4_failing_checks demoToken2.authorizer
    [[⟨"user", [Term.str "alice"]⟩], [⟨"user", [Term.str "alice"]⟩]]
    rfl (by decide)).1

/-- C5: for every root keypair `r`, the token built from `r` holding the
fact `user("alice")` and the check `check if user($u)`, authorized with
the single policy `allow if user("alice")`, returns 0; the same token
authorized with the single policy `allow if user("bob")` fails with an
`AuthorizationError` (default-deny: no policy matched after all checks
passed). -/
theorem claim5_scenario (r : PyKeyPair) :
    scenarioBuilder.2.1 = .ok () ∧ scenarioBuilder.2.2 = .ok () ∧
    isOkE (scenarioBuilder.1.build r) = true ∧
    scenarioAuthorize r "allow if user(\"alice\")" = .ok 0 ∧
    scenarioAuthorize r "allow if user(\"bob\")" =
      .error (.authorization .noMatchingPolicy) :=
  ⟨rfl, rfl, rfl, rfl, rfl⟩

/-- C2: for every chain `c` that verifies under the root public key and
whose serialization succeeds, `from_bytes (to_bytes c) rootPk` succeeds
(re-verifying the signature chain) and reconstructs a chain with the same
block sources at every index and the same verification outcome under
every key. -/
theorem claim2_roundtrip (c : PyBiscuit) (pk : Nat) (bs : List Nat)
    (hv : verifyChain pk c = true) (hb : c.to_bytes = .ok bs) :
    ∃ c', PyBiscuit.from_bytes bs pk = .ok c' ∧
      (∀ i, c'.block_source i = c.block_source i) ∧
      ∀ pk', verifyChain pk' c' = verifyChain pk' c := by
  have hbs : bs = encChain c := by
    simp only [PyBiscuit.to_bytes, Except.ok.injEq] at hb
    exact hb.symm
  subst hbs
  refine ⟨c, ?_, fun i => rfl, fun pk' => rfl⟩
  unfold PyBiscuit.from_bytes
  have hd : decChain (encChain c) = some ((wireVersion, c), []) := by
    have h := decChain_enc c []
    simpa using h
  rw [hd]
  simp [hv]

/-- C2 witness: the concrete chain `demoToken` round-trips under its root
public key. -/
theorem claim2_witness :
    ∃ c', PyBiscuit.from_bytes (encChain demoToken) demoKp.public_key = .ok c' ∧
      (∀ i, c'.block_source i = demoToken.block_source i) ∧
      ∀ pk', verifyChain pk' c' = verifyChain pk' demoToken :=
  claim2_roundtrip demoToken demoKp.public_key (encChain demoToken) rfl rfl

/-- C1: attenuation never widens authority.  For every authorizer `A`
holding chain `c` and every successful `c.append bb = c'`: the effective
checks of `c'` are a superset of those of `c`, and every request allowed
against `c'` was already allowed (with the same policy index) against `c`
— contrapositively, every request denied against `c` stays denied against
`c'`. -/
theorem claim1_attenuation (A : PyAuthorizer) (c c' : PyBiscuit)
    (bb : PyBlockBuilder) (htok : A.token = some c) (hne : c.blocks ≠ [])
    (happ : c.append bb = .ok c') :
    effectiveChecks c ⊆ effectiveChecks c' ∧
    ∀ i, ({ A with token := some c' } : PyAuthorizer).authorize = .ok i →
      A.authorize = .ok i := by
  have hseal : c.sealedFlag = false := by
    cases hsf : c.sealedFlag
    · rfl
    · simp [PyBiscuit.append, hsf] at happ
  simp only [PyBiscuit.append, hseal, Bool.false_eq_true, if_false,
    Except.ok.injEq] at happ
  have hbs : c'.blocks = c.blocks ++
      [⟨bb.freeze, pubOf (c.nextSecret + 1),
        signMsg c.nextSecret
          (blockMsg bb.freeze (pubOf (c.nextSecret + 1)) (lastSig c))⟩] := by
    rw [← happ]
  constructor
  · have hEff : effectiveChecks c' = effectiveChecks c ++ bb.freeze.checks := by
      simp [effectiveChecks, hbs, PyBlockBuilder.freeze]
    rw [hEff]
    exact List.subset_append_left _ _
  · intro i hA'
    have hsc := authScopes_swap_token A c c' _ htok hbs hne
    obtain ⟨ws', hw', hf', hp'⟩ := (authorize_ok_iff _ i).mp hA'
    rw [hsc] at hw' hf'
    obtain ⟨ws, w, hw, rfl⟩ := computeWorlds_snoc _ _ _ _ _ hw'
    have hlen : ws.length = (authScopes A).length :=
      computeWorlds_length _ _ _ _ hw
    rw [failingChecks_snoc _ _ _ _ hlen] at hf'
    have hf : failingChecks (authScopes A) ws = [] :=
      (List.append_eq_nil.mp hf').1
    have hhd : (ws ++ [w]).headD [] = ws.headD [] := by
      obtain ⟨s0, tl, hsA⟩ := authScopes_cons A
      have hl : ws.length = (s0 :: tl).length := by rw [← hsA]; exact hlen
      cases ws with
      | nil => simp at hl
      | cons w0 wtl => simp
    rw [hhd] at hp'
    exact (authorize_ok_iff A i).mpr ⟨ws, hw, hf, hp'⟩

/-- C1 witness: the concrete chain `demoToken` appended with
`demoBlockBuilder` (giving `demoToken2`): check superset and
success-reflection hold. -/
theorem claim1_witness :
    effectiveChecks demoToken ⊆ effectiveChecks demoToken2 ∧
    ∀ i, ({ demoToken.authorizer with token := some demoToken2 } :
        PyAuthorizer).authorize = .ok i →
      demoToken.authorizer.authorize = .ok i :=
  claim1_attenuation demoToken.authorizer demoToken demoToken2 demoBlockBuilder
    rfl (by decide) rfl
